import Mathlib

/-!
Shallow embedding of the TCP communication core of pyoptislang
(`src/ansys/optislang/core/tcp_osl_server.py`) and proofs about it.

Modelling conventions:
* Python `float` time values are modelled by `ℚ` (the code only adds,
  subtracts and compares timeouts; `0.5` is exact in binary floating point,
  so rational arithmetic is faithful on every value the claims touch).
* Python exceptions are an explicit error type `PyErr`; fallible code
  returns `Except PyErr α`.  All library exception classes derive from
  Python's `Exception`, so a broad `except Exception:` clause catches
  every `PyErr` constructor.
* Socket I/O is driven by explicit traces: each blocking loop iteration
  consumes one trace entry describing what the socket yielded and the
  elapsed time observed at that iteration.  `socket.settimeout` itself is
  modelled as effect-free.
-/

namespace PyOsl

/-- Python exception values relevant to the communication core. -/
inductive PyErr where
  | timeoutError (msg : String)
  | valueError (msg : String)
  | typeError (msg : String)
  | attributeError (msg : String)
  | responseFormatError (msg : String)
  | emptyResponseError (msg : String)
  | connectionEstablishedError (msg : String)
  | connectionNotEstablishedError (msg : String)
  | connectionRefusedError (msg : String)
  | oslCommandError (msg : String)
  | oslCommunicationError (msg : String)
  | osError (msg : String)
  deriving DecidableEq, Repr

/-- `_get_current_timeout(initial_timeout, start_time)` from the source.
`now` is the value of `time.time()` at the call.  For a non-zero, non-`None`
initial timeout the remaining budget is computed and a `TimeoutError` is
raised when it is not positive; otherwise the initial value (`0` or `None`)
is returned unchanged. -/
def getCurrentTimeout (initial_timeout : Option ℚ) (now start_time : ℚ) :
    Except PyErr (Option ℚ) :=
  match initial_timeout with
  | some t =>
      if t ≠ 0 then
        let elapsed_time := now - start_time
        let remaining_timeout := t - elapsed_time
        if remaining_timeout ≤ 0 then .error (.timeoutError ("Timeout has expired."))
        else .ok (some remaining_timeout)
      else .ok (some t)
  | none => .ok none

/-- A Python timeout argument: `None`, an `int`, or a `float`.
The distinction matters because the source guards use
`isinstance(timeout, float)`. -/
inductive PyTimeout where
  | noneV
  | intV (n : ℤ)
  | floatV (q : ℚ)
  deriving DecidableEq, Repr

/-- Numeric value of a timeout argument, forgetting the int/float tag. -/
def PyTimeout.toOpt : PyTimeout → Option ℚ
  | .noneV => none
  | .intV n => some (n : ℚ)
  | .floatV q => some q

/-- The guard `isinstance(timeout, float) and timeout <= 0` used by
`receive_msg`, `_recv_response_length`, `_receive_bytes` and `_fetch_file`.
Note that it is `False` for every `int`-typed timeout. -/
def PyTimeout.isNonPositiveFloat : PyTimeout → Bool
  | .floatV q => q ≤ 0
  | _ => false

/-- What one iteration of the header-polling loop observes on the socket. -/
inductive SockEvent where
  /-- `select` reported the socket readable and the two 8-byte big-endian
  length values were read. -/
  | header (len1 len2 : Nat)
  /-- `select` reported nothing readable within the 1 s slice. -/
  | notReadable
  /-- `recv`/`struct.unpack` raised (short read, peer closed, ...). -/
  | recvError
  deriving DecidableEq, Repr

/-- Result of running a trace-driven loop. -/
inductive TraceResult (α : Type) where
  | ok (a : α)
  | err (e : PyErr)
  /-- The trace was exhausted while the loop would still be running. -/
  | outOfTrace
  deriving DecidableEq, Repr

/-- The length value one loop iteration of `_recv_response_length`
obtains: the first 8-byte value when the socket was readable and the two
values matched, nothing otherwise (a mismatch raises a
`ResponseFormatError` that the iteration's `except Exception:` clause
catches and logs). -/
def headerValue : SockEvent → Option Nat
  | .header len1 len2 => if len1 = len2 then some len1 else none
  | .notReadable => none
  | .recvError => none

/-- The `while True:` polling loop of `_recv_response_length`.  Each trace
entry carries the socket event of that iteration and the elapsed time
`now - start_time` observed at the end of the iteration.  When no matching
length pair was obtained (socket silent, short read, or the swallowed
mismatch raise) the loop falls through to the timeout check and keeps
polling. -/
def recvLenLoop (timeout : Option ℚ) : List (SockEvent × ℚ) → TraceResult Nat
  | [] => .outOfTrace
  | (ev, elapsed) :: rest =>
    match headerValue ev with
    | some response_len => .ok response_len
    | none =>
      match timeout with
      | some t =>
          if elapsed > t then
            .err (.timeoutError ("Time to receive message length has expired."))
          else recvLenLoop timeout rest
      | none => recvLenLoop timeout rest

/-- `_recv_response_length(timeout)`: the float-typed non-positive timeout
guard, then the polling loop. -/
def recvResponseLength (timeout : PyTimeout) (trace : List (SockEvent × ℚ)) :
    TraceResult Nat :=
  if timeout.isNonPositiveFloat then
    .err (.valueError ("Timeout value must be greater than zero or None."))
  else recvLenLoop timeout.toOpt trace

/-- `TcpClient._BUFFER_SIZE = pow(2, 12)`. -/
def bufferSize : Nat := 4096

/-- The accumulation loop of `_receive_bytes`.  Each trace entry is the
byte chunk `recv` returned for that iteration (truncated to the requested
buffer size, as a real socket would) together with the elapsed time
`now - start_time` seen by the per-iteration `_get_current_timeout` call.
An empty chunk means the peer closed the connection and breaks the loop. -/
def receiveBytesLoop (timeout : Option ℚ) (count : Nat) (received : List Nat) :
    List (List Nat × ℚ) → TraceResult (List Nat)
  | [] => if count ≤ received.length then .ok received else .outOfTrace
  | (chunk, elapsed) :: rest =>
    if count ≤ received.length then .ok received
    else
      match getCurrentTimeout timeout elapsed 0 with
      | .error e => .err e
      | .ok _ =>
        let remain := count - received.length
        let buff := if remain > bufferSize then bufferSize else remain
        let c := chunk.take buff
        if c.isEmpty then .ok received
        else receiveBytesLoop timeout count (received ++ c) rest

/-- `_receive_bytes(count, timeout)`: argument guards, then the loop.
(The declared lengths are unsigned 64-bit values, so `count` is a `Nat`
and the Python guard `count <= 0` is `count = 0` here.) -/
def receiveBytes (timeout : PyTimeout) (count : Nat)
    (chunks : List (List Nat × ℚ)) : TraceResult (List Nat) :=
  if count = 0 then .err (.valueError ("Number of bytes must be greater than zero."))
  else if timeout.isNonPositiveFloat then
    .err (.valueError ("Timeout value must be greater than zero or None."))
  else receiveBytesLoop timeout.toOpt count [] chunks

/-- The write loop of `_fetch_file`: identical chunking, but only the number
of bytes written to disk is tracked (the file is opened with mode `wb`, so
the on-disk size afterwards equals the bytes written). -/
def fetchFileLoop (timeout : Option ℚ) (file_len : Nat) (data_len : Nat) :
    List (List Nat × ℚ) → TraceResult Nat
  | [] => if file_len ≤ data_len then .ok data_len else .outOfTrace
  | (chunk, elapsed) :: rest =>
    if file_len ≤ data_len then .ok data_len
    else
      match getCurrentTimeout timeout elapsed 0 with
      | .error e => .err e
      | .ok _ =>
        let remain := file_len - data_len
        let buff := if remain > bufferSize then bufferSize else remain
        let c := chunk.take buff
        if c.isEmpty then .ok data_len
        else fetchFileLoop timeout file_len (data_len + c.length) rest

/-- `receive_msg(timeout)`.  Arguments beyond the source's own:
`hdrTrace` drives the header-polling loop, `elapsedAfterHeader` is the
elapsed time seen by the `_get_current_timeout` call after the header was
read, and `chunks` drives `_receive_bytes`.  Returns the received payload
bytes (text decoding is a bijection on the byte payload and is omitted). -/
def receiveMsg (is_connected : Bool) (timeout : PyTimeout)
    (hdrTrace : List (SockEvent × ℚ)) (elapsedAfterHeader : ℚ)
    (chunks : List (List Nat × ℚ)) : TraceResult (List Nat) :=
  if ¬is_connected then
    .err (.connectionNotEstablishedError
      ("Cannot receive message. Connection is not established."))
  else if timeout.isNonPositiveFloat then
    .err (.valueError ("Timeout value must be greater than zero or None."))
  else
    match recvResponseLength timeout hdrTrace with
    | .outOfTrace => .outOfTrace
    | .err e => .err e
    | .ok msg_len =>
      if msg_len = 0 then
        .err (.emptyResponseError ("The empty message has been received."))
      else
        match getCurrentTimeout timeout.toOpt elapsedAfterHeader 0 with
        | .error e => .err e
        | .ok remain_timeout =>
          match receiveBytesLoop remain_timeout msg_len [] chunks with
          | .outOfTrace => .outOfTrace
          | .err e => .err e
          | .ok data =>
            if data.length ≠ msg_len then
              .err (.responseFormatError
                ("Received data does not match declared data size."))
            else .ok data

/-- `receive_file(file_path, timeout)`: same header protocol, then
`_fetch_file` and the on-disk size check.  Note the source has no
float-timeout guard of its own here; the guard sits inside
`_recv_response_length`. -/
def receiveFile (is_connected : Bool) (timeout : PyTimeout)
    (hdrTrace : List (SockEvent × ℚ)) (elapsedAfterHeader : ℚ)
    (chunks : List (List Nat × ℚ)) : TraceResult Unit :=
  if ¬is_connected then
    .err (.connectionNotEstablishedError
      ("Cannot receive file. Connection is not established."))
  else
    match recvResponseLength timeout hdrTrace with
    | .outOfTrace => .outOfTrace
    | .err e => .err e
    | .ok file_len =>
      if file_len = 0 then
        .err (.emptyResponseError ("The empty file has been received."))
      else
        match getCurrentTimeout timeout.toOpt elapsedAfterHeader 0 with
        | .error e => .err e
        | .ok remain_timeout =>
          match fetchFileLoop remain_timeout file_len 0 chunks with
          | .outOfTrace => .outOfTrace
          | .err e => .err e
          | .ok written =>
            if written ≠ file_len then
              .err (.responseFormatError
                ("Received data does not match declared data size."))
            else .ok ()

/-! ## Command responses (`_send_command` / `__check_command_response`) -/

/-- A decoded JSON field value.  The decoded command responses the core
inspects are objects (or lists of objects) whose relevant fields are
primitive, so nesting is not modelled. -/
inductive JPrim where
  | pstr (s : String)
  | pnum (q : ℚ)
  | pbool (b : Bool)
  | pnull
  deriving DecidableEq, Repr

/-- A decoded JSON object: ordered key/value pairs with unique keys. -/
abbrev JObject : Type := List (String × JPrim)

/-- A decoded command response: `json.loads` yields either a single object
or a list of objects (`isinstance(response, list)` in the source). -/
inductive JResponse where
  | single (o : JObject)
  | multiple (os : List JObject)
  deriving DecidableEq, Repr

/-- Python `key in response` / `response[key]` on a dict. -/
def jlookup (fields : JObject) (key : String) : Option JPrim :=
  (List.find? (fun kv => kv.1 = key) fields).map (fun kv => kv.2)

/-- Python `str.lower()`, character-wise (the status values involved are
ASCII). -/
def pyLower (s : String) : String := String.mk (s.data.map Char.toLower)

/-- Python `str(...)` of a primitive value. -/
def pyStrOfPrim : JPrim → String
  | .pstr s => s
  | .pnum q => toString q.num ++ (if q.den = 1 then "" else "/" ++ toString q.den)
  | .pbool b => if b then "True" else "False"
  | .pnull => "None"

/-- Python `repr(...)` of a primitive value (as it appears inside
`str(dict)`). -/
def pyReprPrim : JPrim → String
  | .pstr s => "'" ++ s ++ "'"
  | v => pyStrOfPrim v

/-- Python `str(response)` for a dict: `\x7b'k': v, ...\x7d`. -/
def pyStrOfObj (o : JObject) : String :=
  "\x7b" ++
    String.intercalate (", ")
      (o.map (fun kv => "'" ++ kv.1 ++ "': " ++ pyReprPrim kv.2)) ++
  "\x7d"

/-- `TcpOslServer.__check_command_response(response)`:
`if "status" in response and response["status"].lower() == "failure"` then
assemble the error message exactly as the source does:
`message = None`; take `response["message"]` when present; when `std_err`
is present do `message += "; " + response["std_err"]` (a `TypeError` when
`message` is still `None` or not a string); fall back to
`"Command error: " + str(response)` when `message` is `None`; finally
raise `OslCommandError(message)`. -/
def checkCommandResponse (response : JObject) : Except PyErr Unit :=
  match jlookup response ("status") with
  | none => .ok ()
  | some status =>
    match status with
    | .pstr s =>
      if pyLower s = "failure" then
        let message : Option JPrim := jlookup response ("message")
        match jlookup response ("std_err") with
        | some std_err =>
          match message, std_err with
          | some (.pstr m), .pstr e2 => .error (.oslCommandError (m ++ "; " ++ e2))
          | some (.pstr _), _ =>
              .error (.typeError ("can only concatenate str (not other) to str"))
          | none, _ =>
              .error (.typeError
                ("unsupported operand type(s) for +=: NoneType and str"))
          | some _, _ =>
              .error (.typeError ("unsupported operand type(s) for +="))
        | none =>
          match message with
          | some (.pstr m) => .error (.oslCommandError m)
          | some .pnull =>
              .error (.oslCommandError ("Command error: " ++ pyStrOfObj response))
          | some v => .error (.oslCommandError (pyStrOfPrim v))
          | none =>
              .error (.oslCommandError ("Command error: " ++ pyStrOfObj response))
      else .ok ()
    | _ => .error (.attributeError ("value of status has no attribute lower"))

/-- The response-scanning tail of `_send_command`: check every element of a
list response, or the single object, and return the decoded response when
no element carries a failure status. -/
def sendCommandScan (response : JResponse) : Except PyErr JResponse :=
  match response with
  | .multiple os =>
    let rec checkAll : List JObject → Except PyErr Unit
      | [] => .ok ()
      | o :: rest =>
        match checkCommandResponse o with
        | .error e => .error e
        | .ok _ => checkAll rest
    match checkAll os with
    | .error e => .error e
    | .ok _ => .ok response
  | .single o =>
    match checkCommandResponse o with
    | .error e => .error e
    | .ok _ => .ok response

/-! ## The transport phase of `_send_command` -/

/-- Outcomes of the three socket steps of one `_send_command` round trip.
`sockOnConnectErr` records whether `self.__socket` was still set at the
point a failing `connect` raised (it is `False` when the candidate loop
ended with no socket, `True` when `connect` raised out of the middle of
the loop, e.g. a `TimeoutError` from `_get_current_timeout`). -/
structure TransportTrace where
  connectErr : Option PyErr
  sockOnConnectErr : Bool
  sendErr : Option PyErr
  recvErr : Option PyErr
  response : JResponse

/-- `TcpClient.disconnect()`: `if self.is_connected: close; socket = None`. -/
def disconnect (is_connected : Bool) : Bool :=
  if is_connected then false else is_connected

/-- The first exception raised inside the `try:` block of `_send_command`,
if any. -/
def TransportTrace.firstErr (tr : TransportTrace) : Option PyErr :=
  match tr.connectErr with
  | some e => some e
  | none =>
    match tr.sendErr with
    | some e => some e
    | none => tr.recvErr

/-- `PyErr` analogue of `except TimeoutError`. -/
def PyErr.isTimeout : PyErr → Bool
  | .timeoutError _ => true
  | _ => false

/-- The two `except` clauses of `_send_command`:
`except TimeoutError as ex: raise` re-raises the exception unchanged,
`except Exception as ex: raise OslCommunicationError(...) from ex`
replaces every other exception. -/
def wrapTransportErr (e : PyErr) : PyErr :=
  match e with
  | .timeoutError m => .timeoutError m
  | _ =>
    .oslCommunicationError
      ("An error occurred while communicating with the optiSLang server.")

/-- The `try/except/finally` of `_send_command` around
`connect`/`send_msg`/`receive_msg`, followed by the response scan.
Returns the result and whether the per-call client is still connected
when `_send_command` returns or raises (`finally: client.disconnect()`
runs on every path, success included). -/
def sendCommand (tr : TransportTrace) : Except PyErr JResponse × Bool :=
  let tryOutcome : Except PyErr JResponse × Bool :=
    match tr.connectErr with
    | some e => (.error e, tr.sockOnConnectErr)
    | none =>
      match tr.sendErr with
      | some e => (.error e, true)
      | none =>
        match tr.recvErr with
        | some e => (.error e, true)
        | none => (.ok tr.response, true)
  (match tryOutcome.1 with
   | .error e => .error (wrapTransportErr e)
   | .ok r => sendCommandScan r,
   disconnect tryOutcome.2)

/-! ## `TcpOslServer.__terminate_listener_thread` -/

/-- Python `a or b` on strings: the first operand when it is truthy
(non-empty), otherwise the second. -/
def pyStrOr (a b : String) : String := if a = "" then b else a

/-- `ServerNotification.EXEC_FAILED.name`. -/
def execFailedName : String := "EXEC_FAILED"

/-- `ServerNotification.CHECK_FAILED.name`. -/
def checkFailedName : String := "CHECK_FAILED"

/-- The list literal the source builds in the first membership test:
`[ServerNotification.EXEC_FAILED.name or ServerNotification.CHECK_FAILED.name]`.
Because `or` binds tighter than the list construction, this is the
singleton `["EXEC_FAILED"]`. -/
def failureNotificationList : List String := [pyStrOr execFailedName checkFailedName]

/-- Observable effect of one invocation of the one-shot callback
`__terminate_listener_thread`: whether `sender.stop_listening()` and
`sender.clear_callbacks()` ran, and what (if anything) was put on the
handoff queue.  The source puts the *strings* `"False"` / `"True"`. -/
structure TermEffect where
  stopped : Bool
  callbacksCleared : Bool
  queued : Option String
  deriving DecidableEq, Repr

/-- `__terminate_listener_thread(sender, response, target_notifications,
target_queue, logger)` where `ty = response.get("type", None)`. -/
def terminateListenerThread (ty : Option String)
    (target_notifications : List String) : TermEffect :=
  match ty with
  | some t =>
    if failureNotificationList.contains t then
      { stopped := true, callbacksCleared := true, queued := some ("False") }
    else if target_notifications.contains t then
      { stopped := true, callbacksCleared := true, queued := some ("True") }
    else
      { stopped := false, callbacksCleared := false, queued := none }
  | none =>
    -- only `logger.error(...)` runs; nothing is stopped or queued
    { stopped := false, callbacksCleared := false, queued := none }

/-- Target notification list wired up for the exec-finished wait in
`start`/`stop`/`stop_gently`. -/
def execFinishedTargets : List String := ["EXECUTION_FINISHED", "NOTHING_PROCESSED"]

/-- Target notification list wired up for the exec-started wait in `start`. -/
def execStartedTargets : List String := ["EXECUTION_STARTED"]

/-! ## `TcpOslServer.__refresh_listeners_registration` -/

/-- `check_for_refresh = 0.5` (seconds slept per loop iteration). -/
def checkForRefresh : ℚ := 1/2

/-- `self.__listeners_refresh_interval = 20` set in `TcpOslServer.__init__`. -/
def listenersRefreshInterval : ℚ := 20

/-- A `refresh_listener_registration` command as sent on the wire, carrying
the uid of the listener whose lease it renews (the JSON rendering lives in
the `server_commands` collaborator module). -/
structure RefreshCommand where
  uid : String
  deriving DecidableEq, Repr

/-- One refresh pass of the loop body: `for listener in listeners: send
refresh_listener_registration(uid)` — one command per registered listener,
in order. -/
def refreshPass (listener_uids : List String) : List RefreshCommand :=
  listener_uids.map (fun uid => { uid := uid })

/-- The refresh loop, iteration by iteration.  `signal i` is the value of
`self.__refresh_listeners.is_set()` at the `while` check of iteration `i`
(1-based); `fuel` bounds how many iterations of the (in the source,
unbounded) loop the trace covers; `counter` is the loop's counter variable.
Returns, per refresh pass performed, the iteration index at which it ran
and the refresh commands sent (one per listener). -/
def refreshLoopRun (interval : ℚ) (signal : Nat → Bool) :
    Nat → Nat → ℚ → List String → List (Nat × List RefreshCommand)
  | 0, _, _, _ => []
  | fuel + 1, i, counter, listener_uids =>
    if signal i then
      if counter ≥ interval then
        (i, refreshPass listener_uids) ::
          refreshLoopRun interval signal fuel (i + 1) (0 + checkForRefresh)
            listener_uids
      else
        refreshLoopRun interval signal fuel (i + 1) (counter + checkForRefresh)
          listener_uids
    else []

/-! ## `TcpOslListener.__init_listener_socket` / `is_initialized` -/

/-- The bind loop: try each port in order; `bind` raising `IOError` on an
occupied port closes the socket, resets it to `None` and moves on; the
first successful bind breaks the loop. -/
def bindLoop (occupied : Nat → Bool) : List Nat → Option Nat
  | [] => none
  | p :: rest => if occupied p then bindLoop occupied rest else some p

/-- `__init_listener_socket(host, port_range)`: iterate
`range(port_range[0], port_range[1] + 1)`. -/
def initListenerSocket (occupied : Nat → Bool) (lo hi : Nat) : Option Nat :=
  bindLoop occupied (List.range' lo (hi + 1 - lo))

/-- `TcpOslListener.__init__` restricted to its port-range handling: the
pair `(lo, hi)` always has length 2, the `isinstance(port_range, (int, int))`
test is never true for a tuple, and a reversed range raises `ValueError`;
otherwise the socket (the bound port, if any) comes from the bind loop and
no exception escapes it. -/
def tcpOslListenerInit (occupied : Nat → Bool) (lo hi : Nat) :
    Except PyErr (Option Nat) :=
  if lo > hi then .error (.valueError ("First number is higher."))
  else .ok (initListenerSocket occupied lo hi)

/-- `TcpOslListener.is_initialized()`: the listener socket is not `None`. -/
def isInitialized (listener_socket : Option Nat) : Bool :=
  listener_socket.isSome

/-! ## `TcpClient.connect` -/

/-- What happens for one resolved address candidate inside the `for` loop
of `connect`. -/
inductive CandOutcome where
  /-- `socket.socket(af, socktype, proto)` raised `OSError`. -/
  | createFail
  /-- the socket was created but `connect(sa)` raised `OSError`. -/
  | connectFail
  /-- the socket was created and `connect(sa)` succeeded. -/
  | success
  deriving DecidableEq, Repr

/-- The candidate loop of `TcpClient.connect`.  `sock` is whether
`self.__socket` currently holds a socket; each candidate carries the
elapsed time `now - start_time` observed by its
`_get_current_timeout(timeout, start_time)` call (which can raise a
`TimeoutError` that propagates out of `connect` uncaught).  Note the loop
has no `break`: it keeps iterating after a successful connection. -/
def connectLoop (timeout : Option ℚ) (sock : Bool) :
    List (CandOutcome × ℚ) → Except PyErr Bool
  | [] => .ok sock
  | (cand, elapsed) :: rest =>
    match cand with
    | .createFail => connectLoop timeout false rest
    | .connectFail =>
      match getCurrentTimeout timeout elapsed 0 with
      | .error e => .error e
      | .ok _ => connectLoop timeout false rest
    | .success =>
      match getCurrentTimeout timeout elapsed 0 with
      | .error e => .error e
      | .ok _ => connectLoop timeout true rest

/-- `TcpClient.connect(host, port, timeout)`: already-connected guard, the
candidate loop starting from `self.__socket = None`, and the final
`if self.__socket is None: raise ConnectionRefusedError`.  Returns whether
the client ends up connected. -/
def tcpClientConnect (is_connected : Bool) (timeout : Option ℚ)
    (candidates : List (CandOutcome × ℚ)) (host : String) (port : Nat) :
    Except PyErr Bool :=
  if is_connected then
    .error (.connectionEstablishedError ("Connection is already established."))
  else
    match connectLoop timeout false candidates with
    | .error e => .error e
    | .ok sock =>
      if sock then .ok true
      else
        .error (.connectionRefusedError
          ("Connection could not be established to host " ++ host ++
            " and port " ++ toString port ++ "."))

/-! ## Theorems -/

/-- Claim C2: the timeout resolver `_get_current_timeout` raises
`TimeoutError` exactly when a finite positive initial budget has fully
elapsed, returns the positive remaining budget otherwise, returns `0`
unchanged for a zero budget, and returns `None` unchanged for an unbounded
budget. -/
theorem getCurrentTimeout_spec (t now start : ℚ) :
    (0 < t → t ≤ now - start →
      getCurrentTimeout (some t) now start =
        .error (.timeoutError ("Timeout has expired."))) ∧
    (0 < t → now - start < t →
      getCurrentTimeout (some t) now start = .ok (some (t - (now - start))) ∧
        0 < t - (now - start)) ∧
    getCurrentTimeout (some 0) now start = .ok (some 0) ∧
    getCurrentTimeout none now start = .ok none := by
  refine ⟨?_, ?_, ?_, rfl⟩
  · intro ht h
    have hne : t ≠ 0 := ne_of_gt ht
    have hle : t - (now - start) ≤ 0 := by linarith
    simp [getCurrentTimeout, hne, hle]
  · intro ht h
    have hne : t ≠ 0 := ne_of_gt ht
    have hgt : ¬ t - (now - start) ≤ 0 := not_le.mpr (by linarith)
    exact ⟨by simp [getCurrentTimeout, hne, hgt], by linarith⟩
  · simp [getCurrentTimeout]

/-- Witness for C2 at concrete inputs: budget 5 with 10 elapsed times out,
budget 5 with 1 elapsed returns 4, budget 0 returns 0, `None` returns
`None`. -/
theorem getCurrentTimeout_spec_witness :
    ((0:ℚ) < 5 ∧ (5:ℚ) ≤ 12 - 2 ∧
      getCurrentTimeout (some 5) 12 2 =
        .error (.timeoutError ("Timeout has expired."))) ∧
    ((3:ℚ) - 2 < 5 ∧ getCurrentTimeout (some 5) 3 2 = .ok (some 4)) ∧
    getCurrentTimeout (some 0) 3 2 = .ok (some 0) ∧
    getCurrentTimeout none 3 2 = .ok none := by
  obtain ⟨h1, -, h3, h4⟩ := getCurrentTimeout_spec 5 12 2
  obtain ⟨-, h2, -, -⟩ := getCurrentTimeout_spec 5 3 2
  refine ⟨⟨by norm_num, by norm_num, h1 (by norm_num) (by norm_num)⟩,
    ⟨by norm_num, ?_⟩, h3, h4⟩
  have h := (h2 (by norm_num) (by norm_num)).1
  norm_num at h
  exact h

/-- Definitional step equation for `recvLenLoop` on a non-empty trace. -/
theorem recvLenLoop_cons (timeout : Option ℚ) (ev : SockEvent) (elapsed : ℚ)
    (rest : List (SockEvent × ℚ)) :
    recvLenLoop timeout ((ev, elapsed) :: rest) =
      match headerValue ev with
      | some response_len => .ok response_len
      | none =>
        match timeout with
        | some t =>
            if elapsed > t then
              .err (.timeoutError ("Time to receive message length has expired."))
            else recvLenLoop timeout rest
        | none => recvLenLoop timeout rest := rfl

/-- Helper: the polling loop of `_recv_response_length` can only end in
`outOfTrace`, a successfully read length, or the loop's own
`TimeoutError` — never in a `ResponseFormatError`, because the mismatch
raise sits inside the `try:` whose `except Exception:` swallows it. -/
theorem recvLenLoop_no_format_error (timeout : Option ℚ) :
    ∀ (trace : List (SockEvent × ℚ)) (m : String),
      recvLenLoop timeout trace ≠ .err (.responseFormatError m) := by
  intro trace
  induction trace with
  | nil => intro m h; simp [recvLenLoop] at h
  | cons hd tl ih =>
    intro m h
    obtain ⟨ev, elapsed⟩ := hd
    rw [recvLenLoop_cons] at h
    split at h
    · exact absurd h (by simp)
    · split at h
      · split at h
        · exact absurd h (by simp)
        · exact ih m h
      · exact ih m h

/-- Claim C1: contrary to the claim (and the function's own docstring),
a received frame whose two 8-byte length-header values differ never makes
`_recv_response_length` raise `ResponseFormatError` to the caller: the
raise is swallowed by the loop's `except Exception:` clause and the loop
keeps polling; a mismatched frame under a finite timeout ends in a
`TimeoutError` instead.  (The mismatched length is also never returned as
a valid length.) -/
theorem recvResponseLength_mismatch_swallowed :
    (∀ (timeout : PyTimeout) (trace : List (SockEvent × ℚ)) (m : String),
        recvResponseLength timeout trace ≠ .err (.responseFormatError m)) ∧
    recvResponseLength (.floatV 5) [(.header 1 2, 1), (.notReadable, 6)] =
      .err (.timeoutError ("Time to receive message length has expired.")) := by
  constructor
  · intro timeout trace m h
    rw [recvResponseLength] at h
    by_cases hg : timeout.isNonPositiveFloat
    · simp [hg] at h
    · simp only [hg, Bool.false_eq_true, if_false] at h
      exact recvLenLoop_no_format_error timeout.toOpt trace m h
  · rfl

/-- Claim C5: a float-typed timeout `<= 0` is rejected with `ValueError`
before any socket operation by `receive_msg`, `receive_file` (via
`_recv_response_length`) and `_recv_response_length` itself — but the
guard is `isinstance(timeout, float)`, so an int-typed timeout `<= 0`
(e.g. the integer `0`) passes the guard and the call proceeds to socket
I/O, contradicting the claim for integer timeouts. -/
theorem receive_timeout_guard_spec :
    (∀ q : ℚ, q ≤ 0 →
      ∀ (hdr : List (SockEvent × ℚ)) (e : ℚ) (chunks : List (List Nat × ℚ)),
        receiveMsg true (.floatV q) hdr e chunks =
          .err (.valueError ("Timeout value must be greater than zero or None.")) ∧
        receiveFile true (.floatV q) hdr e chunks =
          .err (.valueError ("Timeout value must be greater than zero or None.")) ∧
        recvResponseLength (.floatV q) hdr =
          .err (.valueError ("Timeout value must be greater than zero or None.")))
    ∧
    receiveMsg true (.intV 0) [(.header 3 3, 0)] 0 [([1, 2, 3], 0)] =
      .ok [1, 2, 3] := by
  constructor
  · intro q hq hdr e chunks
    have hguard : PyTimeout.isNonPositiveFloat (.floatV q) = true := by
      simp [PyTimeout.isNonPositiveFloat, hq]
    refine ⟨?_, ?_, ?_⟩
    · simp [receiveMsg, hguard]
    · simp [receiveFile, recvResponseLength, hguard]
    · simp [recvResponseLength, hguard]
  · rfl

/-- Witness for C5 at concrete inputs: float `0` and float `-1` are
rejected by all three entry points. -/
theorem receive_timeout_guard_spec_witness :
    ((0:ℚ) ≤ 0 ∧
      receiveMsg true (.floatV 0) [] 0 [] =
        .err (.valueError ("Timeout value must be greater than zero or None.")) ∧
      receiveFile true (.floatV 0) [] 0 [] =
        .err (.valueError ("Timeout value must be greater than zero or None.")) ∧
      recvResponseLength (.floatV 0) [] =
        .err (.valueError ("Timeout value must be greater than zero or None.")))
    ∧
    ((-1:ℚ) ≤ 0 ∧
      receiveMsg true (.floatV (-1)) [] 0 [] =
        .err (.valueError ("Timeout value must be greater than zero or None.")))
    := by
  refine ⟨⟨by norm_num, receive_timeout_guard_spec.1 0 (by norm_num) [] 0 []⟩,
    ⟨by norm_num, (receive_timeout_guard_spec.1 (-1) (by norm_num) [] 0 []).1⟩⟩

/-- Claim C6: a received frame whose duplicated header declares length
zero makes `receive_msg` raise `EmptyResponseError` ("empty message") and
`receive_file` raise `EmptyResponseError` ("empty file"); the declared
zero length is never treated as a valid empty payload. -/
theorem receive_declared_zero_empty_response
    (timeout : PyTimeout) (hdr : List (SockEvent × ℚ)) (e : ℚ)
    (chunks : List (List Nat × ℚ))
    (h : recvResponseLength timeout hdr = .ok 0) :
    receiveMsg true timeout hdr e chunks =
      .err (.emptyResponseError ("The empty message has been received.")) ∧
    receiveFile true timeout hdr e chunks =
      .err (.emptyResponseError ("The empty file has been received.")) := by
  have hguard : timeout.isNonPositiveFloat = false := by
    by_contra hg
    rw [Bool.not_eq_false] at hg
    rw [recvResponseLength] at h
    simp [hg] at h
  constructor
  · simp [receiveMsg, hguard, h]
  · simp [receiveFile, h]

/-- Witness for C6: a frame whose duplicated header is `(0, 0)`. -/
theorem receive_declared_zero_empty_response_witness :
    recvResponseLength .noneV [(.header 0 0, 0)] = .ok 0 ∧
    receiveMsg true .noneV [(.header 0 0, 0)] 0 [] =
      .err (.emptyResponseError ("The empty message has been received.")) ∧
    receiveFile true .noneV [(.header 0 0, 0)] 0 [] =
      .err (.emptyResponseError ("The empty file has been received.")) := by
  have h := receive_declared_zero_empty_response .noneV [(.header 0 0, 0)] 0 [] rfl
  exact ⟨rfl, h.1, h.2⟩

/-- Claim C4: `__check_command_response` detects `status == "failure"`
case-insensitively and raises `OslCommandError` assembled from `message`
(and `std_err` when both are present), falling back to a generic dump of
the response when neither field is present; a non-failure response passes
the scan of `_send_command` (single object or list) and is returned
decoded.  However, for a failure response that carries `std_err` but no
`message`, the assembly `message += "; " + response["std_err"]` is applied
to `None` and raises a `TypeError` instead of the claimed
`OslCommandError` — the last conjunct evaluates the code at that failing
input. -/
theorem checkCommandResponse_spec (m e2 : String) :
    checkCommandResponse [("status", .pstr "Failure"), ("message", .pstr m)] =
      .error (.oslCommandError m) ∧
    checkCommandResponse
        [("status", .pstr "failure"), ("message", .pstr m), ("std_err", .pstr e2)] =
      .error (.oslCommandError (m ++ "; " ++ e2)) ∧
    checkCommandResponse [("status", .pstr "FAILURE")] =
      .error (.oslCommandError
        ("Command error: " ++ pyStrOfObj [("status", .pstr "FAILURE")])) ∧
    checkCommandResponse [("status", .pstr "success"), ("message", .pstr m)] =
      .ok () ∧
    sendCommandScan (.single [("status", .pstr "success"), ("message", .pstr m)]) =
      .ok (.single [("status", .pstr "success"), ("message", .pstr m)]) ∧
    sendCommandScan (.multiple
        [[("status", .pstr "success")],
         [("status", .pstr "Failure"), ("message", .pstr m)]]) =
      .error (.oslCommandError m) ∧
    checkCommandResponse [("status", .pstr "failure"), ("std_err", .pstr e2)] =
      .error (.typeError ("unsupported operand type(s) for +=: NoneType and str"))
    := by
  refine ⟨rfl, rfl, rfl, rfl, rfl, rfl, rfl⟩

/-- Claim C3: the one-shot wait callback `__terminate_listener_thread`
stops the listener, detaches its callbacks and resolves the handoff queue
with `"False"` on an `EXEC_FAILED` notification and with `"True"` on any
target notification — but, because the failure membership test is the
singleton `[EXEC_FAILED.name or CHECK_FAILED.name] = ["EXEC_FAILED"]`, a
`CHECK_FAILED` notification matches neither branch: nothing is queued, the
listener keeps running, and the blocked caller hangs, contradicting the
claim for the `CHECK_FAILED` failure category.  (Note also that the flag
queued is the *string* `"False"`/`"True"`, not a boolean.) -/
theorem terminateListenerThread_spec :
    (∀ targets : List String,
      terminateListenerThread (some execFailedName) targets =
        { stopped := true, callbacksCleared := true, queued := some ("False") }) ∧
    terminateListenerThread (some ("EXECUTION_STARTED")) execStartedTargets =
      { stopped := true, callbacksCleared := true, queued := some ("True") } ∧
    terminateListenerThread (some ("EXECUTION_FINISHED")) execFinishedTargets =
      { stopped := true, callbacksCleared := true, queued := some ("True") } ∧
    terminateListenerThread (some ("NOTHING_PROCESSED")) execFinishedTargets =
      { stopped := true, callbacksCleared := true, queued := some ("True") } ∧
    failureNotificationList = [execFailedName] ∧
    terminateListenerThread (some checkFailedName) execFinishedTargets =
      { stopped := false, callbacksCleared := false, queued := none } ∧
    terminateListenerThread (some checkFailedName) execStartedTargets =
      { stopped := false, callbacksCleared := false, queued := none } := by
  refine ⟨fun targets => rfl, rfl, rfl, rfl, rfl, rfl, rfl⟩

/-- Helper: the result component of `sendCommand` as a function of the
first transport exception. -/
theorem sendCommand_fst (tr : TransportTrace) :
    (sendCommand tr).1 =
      match tr.firstErr with
      | some e => .error (wrapTransportErr e)
      | none => sendCommandScan tr.response := by
  obtain ⟨ce, sk, se, re, resp⟩ := tr
  cases ce <;> cases se <;> cases re <;> rfl

/-- Claim C7: every exception raised during the transport phase of
`_send_command` (connect, send_msg, receive_msg) leaves `_send_command` as
an `OslCommunicationError`, except a `TimeoutError`, which propagates to
the caller unchanged; on every path (success included) the per-call client
is disconnected by the `finally:` clause before `_send_command` returns or
raises. -/
theorem sendCommand_transport_wrapping (tr : TransportTrace) :
    (sendCommand tr).2 = false ∧
    (∀ e : PyErr, tr.firstErr = some e →
      (e.isTimeout = true → (sendCommand tr).1 = .error e) ∧
      (e.isTimeout = false →
        (sendCommand tr).1 = .error (.oslCommunicationError
          ("An error occurred while communicating with the optiSLang server."))))
    ∧
    (tr.firstErr = none → (sendCommand tr).1 = sendCommandScan tr.response) := by
  refine ⟨?_, ?_, ?_⟩
  · obtain ⟨ce, sk, se, re, resp⟩ := tr
    cases ce <;> cases se <;> cases re <;> cases sk <;> rfl
  · intro e he
    rw [sendCommand_fst, he]
    constructor
    · intro ht
      have hw : wrapTransportErr e = e := by
        cases e <;> simp [PyErr.isTimeout, wrapTransportErr] at ht ⊢
      show Except.error (wrapTransportErr e) = Except.error e
      rw [hw]
    · intro ht
      have hw : wrapTransportErr e =
          .oslCommunicationError
            ("An error occurred while communicating with the optiSLang server.") := by
        cases e <;> simp [PyErr.isTimeout, wrapTransportErr] at ht ⊢
      show Except.error (wrapTransportErr e) = _
      rw [hw]
  · intro he
    rw [sendCommand_fst, he]

/-- Witness for C7 at concrete transport traces: a `TimeoutError` from the
receive step propagates unchanged, an `OSError` from the send step is
wrapped, a clean round trip is scanned, and the client ends disconnected
in each case. -/
theorem sendCommand_transport_wrapping_witness :
    (sendCommand ⟨none, false, none, some (.timeoutError ("t")), .single []⟩).1 =
      .error (.timeoutError ("t")) ∧
    (sendCommand ⟨none, false, some (.osError ("broken pipe")), none, .single []⟩).1 =
      .error (.oslCommunicationError
        ("An error occurred while communicating with the optiSLang server."))
    ∧
    (sendCommand ⟨none, false, none, none, .single []⟩).1 =
      sendCommandScan (.single []) ∧
    (sendCommand ⟨none, false, none, some (.timeoutError ("t")), .single []⟩).2 =
      false := by
  refine ⟨?_, ?_, ?_, ?_⟩
  · exact ((sendCommand_transport_wrapping
      ⟨none, false, none, some (.timeoutError ("t")), .single []⟩).2.1
        (.timeoutError ("t")) rfl).1 rfl
  · exact ((sendCommand_transport_wrapping
      ⟨none, false, some (.osError ("broken pipe")), none, .single []⟩).2.1
        (.osError ("broken pipe")) rfl).2 rfl
  · exact (sendCommand_transport_wrapping
      ⟨none, false, none, none, .single []⟩).2.2 rfl
  · exact (sendCommand_transport_wrapping
      ⟨none, false, none, some (.timeoutError ("t")), .single []⟩).1

/-- Helper: while the counter stays below the interval, `k` consecutive
iterations of the refresh loop (signal set) send nothing and just advance
the tick index and the counter. -/
theorem refreshLoopRun_skip :
    ∀ (k fuel i : Nat) (c : ℚ) (u : List String),
      (∀ j : Nat, j < k →
        c + (j : ℚ) * checkForRefresh < listenersRefreshInterval) →
      refreshLoopRun listenersRefreshInterval (fun _ => true) (k + fuel) i c u =
        refreshLoopRun listenersRefreshInterval (fun _ => true) fuel (i + k)
          (c + (k : ℚ) * checkForRefresh) u := by
  intro k
  induction k with
  | zero => intro fuel i c u _; simp
  | succ k ih =>
    intro fuel i c u h
    have h0 : c < listenersRefreshInterval := by simpa using h 0 (Nat.succ_pos k)
    have hstep :
        refreshLoopRun listenersRefreshInterval (fun _ => true) (k + 1 + fuel) i c u =
          refreshLoopRun listenersRefreshInterval (fun _ => true) (k + fuel) (i + 1)
            (c + checkForRefresh) u := by
      rw [show k + 1 + fuel = (k + fuel) + 1 from by omega]
      simp [refreshLoopRun, (not_le.mpr h0 : ¬ listenersRefreshInterval ≤ c)]
    rw [hstep, ih fuel (i + 1) (c + checkForRefresh) u ?_]
    · rw [show i + 1 + k = i + (k + 1) from by omega,
        show c + checkForRefresh + (k : ℚ) * checkForRefresh =
          c + ((k + 1 : Nat) : ℚ) * checkForRefresh from by push_cast; ring]
    · intro j hj
      have := h (j + 1) (by omega)
      push_cast at this ⊢
      linarith

/-- Helper: once the counter has reached the interval, the next iteration
(signal set) sends one refresh command per listener and restarts the
counter at `0 + 0.5`. -/
theorem refreshLoopRun_fire (fuel i : Nat) (c : ℚ) (u : List String)
    (hc : listenersRefreshInterval ≤ c) :
    refreshLoopRun listenersRefreshInterval (fun _ => true) (fuel + 1) i c u =
      (i, refreshPass u) ::
        refreshLoopRun listenersRefreshInterval (fun _ => true) fuel (i + 1)
          (0 + checkForRefresh) u := by
  simp [refreshLoopRun, hc]

/-- Helper: with the signal continuously set and the counter starting at
`0`, 40 ticks pass without any refresh, and the 41st tick fires the first
refresh pass. -/
theorem refreshLoopRun_first_window (fuel : Nat) (u : List String) :
    refreshLoopRun listenersRefreshInterval (fun _ => true) (40 + fuel) 1 0 u =
      refreshLoopRun listenersRefreshInterval (fun _ => true) fuel 41
        ((0 : ℚ) + (40 : Nat) * checkForRefresh) u := by
  have hside : ∀ j : Nat, j < 40 →
      (0 : ℚ) + (j : ℚ) * checkForRefresh < listenersRefreshInterval := by
    intro j hj
    have hj39 : (j : ℚ) ≤ 39 := by exact_mod_cast Nat.le_of_lt_succ hj
    rw [checkForRefresh, listenersRefreshInterval]
    linarith
  simpa using refreshLoopRun_skip 40 fuel 1 0 u hside

/-- Claim C8 counterexample: with the source's interval constant (20) and
the refresh signal continuously set, not a single refresh pass runs within
the first 40 ticks of the 0.5-time-unit poll (20 time-units) — so the
claimed cadence of "20 ticks, i.e. roughly every 10 time-units" is false;
the first refresh pass runs only at tick 41. -/
theorem refresh_cadence_counterexample :
    refreshLoopRun listenersRefreshInterval (fun _ => true) 40 1 0 [("uid1")] = [] ∧
    refreshLoopRun listenersRefreshInterval (fun _ => true) 41 1 0 [("uid1")] =
      [(41, refreshPass [("uid1")])] := by
  have h20 : ((0 : ℚ) + (40 : Nat) * checkForRefresh) = 20 := by
    rw [checkForRefresh]; push_cast; ring
  constructor
  · have h := refreshLoopRun_first_window 0 [("uid1")]
    simpa [refreshLoopRun] using h
  · have h := refreshLoopRun_first_window 1 [("uid1")]
    rw [show (40 : Nat) + 1 = 41 from rfl] at h
    rw [h, h20,
      refreshLoopRun_fire 0 41 20 [("uid1")]
        (by rw [listenersRefreshInterval])]
    simp [refreshLoopRun]

/-- Claim C8 (amended): the refresh loop re-sends a refresh-registration
command for every registered listener every 40 ticks of the 0.5-time-unit
poll — the interval constant 20 is compared against a counter that
accumulates 0.5 per tick, so it measures time-units and the cadence is
roughly every 20 time-units (passes at ticks 41, 81, ...) — and the loop
exits cooperatively as soon as the shared refresh signal is cleared. -/
theorem refresh_cadence_amended :
    (∀ uids : List String,
      refreshLoopRun listenersRefreshInterval (fun _ => true) 81 1 0 uids =
        [(41, refreshPass uids), (81, refreshPass uids)]) ∧
    (∀ (signal : Nat → Bool) (fuel i : Nat) (c : ℚ) (uids : List String),
      signal i = false →
      refreshLoopRun listenersRefreshInterval signal fuel i c uids = []) := by
  constructor
  · intro uids
    have h20 : ((0 : ℚ) + (40 : Nat) * checkForRefresh) = 20 := by
      rw [checkForRefresh]; push_cast; ring
    have h1 := refreshLoopRun_first_window 41 uids
    rw [show (40 : Nat) + 41 = 81 from rfl] at h1
    rw [h1, h20,
      refreshLoopRun_fire 40 41 20 uids (by rw [listenersRefreshInterval])]
    have hside2 : ∀ j : Nat, j < 39 →
        ((0 : ℚ) + checkForRefresh) + (j : ℚ) * checkForRefresh <
          listenersRefreshInterval := by
      intro j hj
      have hj38 : (j : ℚ) ≤ 38 := by exact_mod_cast Nat.le_of_lt_succ hj
      rw [checkForRefresh, listenersRefreshInterval]
      linarith
    have h2 := refreshLoopRun_skip 39 1 42 ((0 : ℚ) + checkForRefresh) uids hside2
    rw [show (39 : Nat) + 1 = 40 from rfl, show (42 : Nat) + 39 = 81 from rfl] at h2
    rw [h2,
      show ((0 : ℚ) + checkForRefresh) + (39 : Nat) * checkForRefresh = 20 from by
        rw [checkForRefresh]; push_cast; ring,
      refreshLoopRun_fire 0 81 20 uids (by rw [listenersRefreshInterval])]
    simp [refreshLoopRun]
  · intro signal fuel i c uids h
    cases fuel with
    | zero => rfl
    | succ n => simp [refreshLoopRun, h]

/-- Witness for C8 (amended) at concrete inputs: one registered listener,
and a signal that is already cleared at the first check. -/
theorem refresh_cadence_amended_witness :
    refreshLoopRun listenersRefreshInterval (fun _ => true) 81 1 0 [("u")] =
      [(41, refreshPass [("u")]), (81, refreshPass [("u")])] ∧
    ((fun _ : Nat => false) 1 = false ∧
      refreshLoopRun listenersRefreshInterval (fun _ => false) 5 1 0 [("u")] = []) := by
  exact ⟨refresh_cadence_amended.1 [("u")],
    rfl, refresh_cadence_amended.2 (fun _ => false) 5 1 0 [("u")] rfl⟩

/-- Helper: the bind loop returns the first port of the list that is not
occupied over a contiguous range. -/
theorem bindLoop_range'_first_free (occupied : Nat → Bool) :
    ∀ n a : Nat, (∃ p, a ≤ p ∧ p < a + n ∧ occupied p = false) →
      ∃ q, bindLoop occupied (List.range' a n) = some q ∧ occupied q = false ∧
        a ≤ q ∧ q < a + n ∧ ∀ r, a ≤ r → r < q → occupied r = true := by
  intro n
  induction n with
  | zero =>
    rintro a ⟨p, h1, h2, -⟩
    omega
  | succ n ih =>
    rintro a ⟨p, hp1, hp2, hp3⟩
    rw [List.range'_succ]
    by_cases ha : occupied a = true
    · have hpa : a + 1 ≤ p := by
        rcases Nat.eq_or_lt_of_le hp1 with rfl | hlt
        · rw [ha] at hp3; cases hp3
        · exact hlt
      obtain ⟨q, hq1, hq2, hq3, hq4, hq5⟩ := ih (a + 1) ⟨p, hpa, by omega, hp3⟩
      refine ⟨q, ?_, hq2, by omega, by omega, ?_⟩
      · simp [bindLoop, ha, hq1]
      · intro r hr1 hr2
        rcases Nat.eq_or_lt_of_le hr1 with rfl | hlt
        · exact ha
        · exact hq5 r hlt hr2
    · rw [Bool.not_eq_true] at ha
      refine ⟨a, ?_, ha, Nat.le_refl a, by omega, fun r h1 h2 => by omega⟩
      simp [bindLoop, ha]

/-- Claim C9: constructing a `TcpOslListener` over a single-port range
`(P, P)` whose only port is occupied completes without raising and leaves
`is_initialized() == False`; over a range containing a free port it binds
the first free port of the range and leaves `is_initialized() == True`. -/
theorem listener_port_range_spec :
    (∀ (occupied : Nat → Bool) (P : Nat), occupied P = true →
      tcpOslListenerInit occupied P P = .ok none ∧ isInitialized none = false) ∧
    (∀ (occupied : Nat → Bool) (lo hi p : Nat),
      lo ≤ p → p ≤ hi → occupied p = false →
      ∃ q, tcpOslListenerInit occupied lo hi = .ok (some q) ∧
        occupied q = false ∧ lo ≤ q ∧ q ≤ hi ∧
        (∀ r, lo ≤ r → r < q → occupied r = true) ∧
        isInitialized (some q) = true) := by
  constructor
  · intro occupied P h
    have hrange : P + 1 - P = 1 := by omega
    refine ⟨?_, rfl⟩
    simp [tcpOslListenerInit, initListenerSocket, hrange, List.range'_one, bindLoop, h]
  · intro occupied lo hi p hlo hhi hfree
    obtain ⟨q, hq1, hq2, hq3, hq4, hq5⟩ :=
      bindLoop_range'_first_free occupied (hi + 1 - lo) lo ⟨p, hlo, by omega, hfree⟩
    have hlohi : ¬ lo > hi := by omega
    refine ⟨q, ?_, hq2, hq3, by omega, hq5, rfl⟩
    simp [tcpOslListenerInit, initListenerSocket, hlohi, hq1]

/-- Witness for C9 at concrete inputs: port 49152 occupied makes the
single-port range `(49152, 49152)` end uninitialized without an exception,
while the range `(49152, 49154)` binds 49153, the first free port. -/
theorem listener_port_range_spec_witness :
    ((fun p : Nat => p = 49152 : Nat → Bool) 49152 = true ∧
      tcpOslListenerInit (fun p : Nat => p = 49152) 49152 49152 = .ok none) ∧
    (∃ q, tcpOslListenerInit (fun p : Nat => p = 49152) 49152 49154 = .ok (some q) ∧
      (fun p : Nat => p = 49152 : Nat → Bool) q = false ∧ 49152 ≤ q ∧ q ≤ 49154 ∧
      (∀ r, 49152 ≤ r → r < q → (fun p : Nat => p = 49152 : Nat → Bool) r = true) ∧
      isInitialized (some q) = true) := by
  refine ⟨⟨by decide, ?_⟩, ?_⟩
  · exact (listener_port_range_spec.1 (fun p : Nat => p = 49152) 49152 (by decide)).1
  · exact listener_port_range_spec.2 (fun p : Nat => p = 49152) 49152 49154 49153
      (by omega) (by omega) (by decide)

/-- Whether one candidate iteration of `TcpClient.connect` leaves
`self.__socket` set: only a successful `connect(sa)` does. -/
def candSock : CandOutcome → Bool
  | .success => true
  | .createFail => false
  | .connectFail => false

/-- Helper: with an unbounded timeout the candidate loop never raises and
whether the socket is set at the end is decided solely by the *last*
candidate (the loop has no `break`). -/
theorem connectLoop_none_getLast (cands : List (CandOutcome × ℚ)) :
    ∀ s : Bool,
      connectLoop none s cands =
        .ok (match cands.getLast? with
             | some pr => candSock pr.1
             | none => s) := by
  induction cands with
  | nil => intro s; rfl
  | cons hd tl ih =>
    intro s
    obtain ⟨c, q⟩ := hd
    have hstep : connectLoop none s ((c, q) :: tl) = connectLoop none (candSock c) tl := by
      cases c <;> rfl
    rw [hstep, ih (candSock c)]
    cases tl with
    | nil => rfl
    | cons h2 t2 =>
      rw [List.getLast?_cons_cons]
      cases hpr : (h2 :: t2).getLast? with
      | none => simp at hpr
      | some pr => rfl

/-- Claim C10 (implicit behavior of the source): `TcpClient.connect`
iterates over every resolved address candidate without stopping after a
successful connection; whenever some candidate connected successfully but
the last attempted candidate fails, the established socket has been
discarded (the attribute ends as `None`) and `connect` raises
`ConnectionRefusedError` despite a connection having been established. -/
theorem tcpClientConnect_discards_established
    (cands : List (CandOutcome × ℚ)) (host : String) (port : Nat)
    (c : CandOutcome) (q : ℚ)
    (_hsucc : ∃ pr ∈ cands, pr.1 = CandOutcome.success)
    (hlast : cands.getLast? = some (c, q)) (hfail : candSock c = false) :
    connectLoop none false cands = .ok false ∧
    tcpClientConnect false none cands host port =
      .error (.connectionRefusedError
        ("Connection could not be established to host " ++ host ++
          " and port " ++ toString port ++ ".")) := by
  have h := connectLoop_none_getLast cands false
  rw [hlast] at h
  simp only [hfail] at h
  refine ⟨h, ?_⟩
  simp [tcpClientConnect, h]

/-- Witness for C10: two candidates, the first connects successfully, the
last fails; `connect` ends with no socket and raises
`ConnectionRefusedError`. -/
theorem tcpClientConnect_discards_established_witness :
    connectLoop none false
        [(CandOutcome.success, 0), (CandOutcome.connectFail, 0)] = .ok false ∧
    tcpClientConnect false none
        [(CandOutcome.success, 0), (CandOutcome.connectFail, 0)]
        ("127.0.0.1") 49690 =
      .error (.connectionRefusedError
        ("Connection could not be established to host " ++ "127.0.0.1" ++
          " and port " ++ toString 49690 ++ ".")) := by
  exact tcpClientConnect_discards_established
    [(CandOutcome.success, 0), (CandOutcome.connectFail, 0)] ("127.0.0.1") 49690
    CandOutcome.connectFail 0
    ⟨(CandOutcome.success, 0), by simp, rfl⟩ rfl rfl

end PyOsl
